import Mathlib

/-!
Verification of the log-based SOC platform's core pipeline against its
specification.  Python text values are modelled as `List Char` (`Str`); dicts
with a fixed key set are modelled as structures with `Option Str` fields
(`none` = key absent); stateful components are modelled by explicit state
passing.  External collaborators (regex search, feed fetches, step failures)
are modelled as explicit parameters.
-/

set_option maxRecDepth 4000

/-- Python strings are sequences of unicode code points. -/
abbrev Str := List Char

/-- Convert a Lean string literal to the `Str` model. -/
def str (s : String) : Str := s.data

/-- Python truthiness of an optional string: `None` and `""` are falsy. -/
def pyTruthy (o : Option Str) : Bool :=
  match o with
  | none => false
  | some s => !s.isEmpty

/-- `o.get(k, "")`-style access followed by `or ""`: absent keys become `""`. -/
def pyGetStr (o : Option Str) : Str := o.getD []

/-- Whitespace stripped by Python's `str.strip()` (principal whitespace chars). -/
def pyIsSpace (c : Char) : Bool :=
  c = ' ' || c = '\t' || c = '\n' || c = '\r' || c = '\x0b' || c = '\x0c'

/-- Python `str.strip()`: drop leading and trailing whitespace. -/
def pyStrip (s : Str) : Str :=
  ((s.dropWhile pyIsSpace).reverse.dropWhile pyIsSpace).reverse

/-- Worker for `pySplitlines`; `acc` is the current line, reversed. -/
def splitlinesAux : Str → Str → List Str
  | [], acc => if acc.isEmpty then [] else [acc.reverse]
  | '\r' :: '\n' :: rest, acc => acc.reverse :: splitlinesAux rest []
  | '\n' :: rest, acc => acc.reverse :: splitlinesAux rest []
  | '\r' :: rest, acc => acc.reverse :: splitlinesAux rest []
  | c :: rest, acc => splitlinesAux rest (c :: acc)

/-- Python `str.splitlines()` on the principal line terminators
`"\n"`, `"\r\n"` and `"\r"`. -/
def pySplitlines (l : Str) : List Str := splitlinesAux l []

/-- Lexicographic comparison of code-point sequences, as Python `str` `<=`. -/
def strLe : Str → Str → Bool
  | [], _ => true
  | _ :: _, [] => false
  | x :: xs, y :: ys => if x = y then strLe xs ys else decide (x < y)

/-- Python `pat in s` substring containment. -/
def strContains (s pat : Str) : Bool :=
  (List.range (s.length + 1)).any (fun i => pat.isPrefixOf (s.drop i))

-- =====================================================================
-- src/core/normalizer.py
-- =====================================================================

/-- `MAX_LEN` from `core/normalizer.py`. -/
def MAX_LEN : Nat := 2000

/-- `HALF_LEN = MAX_LEN // 2` from `core/normalizer.py`. -/
def HALF_LEN : Nat := MAX_LEN / 2

/-- Python `str.isprintable` for the Basic Latin / Latin-1 control range:
space is printable, C0 and C1 control characters (and DEL, NBSP) are not.
Wider Unicode separator categories are beyond this model's scope. -/
def pyIsPrintable (c : Char) : Bool :=
  c = ' ' || !(c.toNat < 0x20 || (0x7F ≤ c.toNat && c.toNat ≤ 0xA0))

/-- `_strip_control_chars` from `core/normalizer.py`: keep printable chars. -/
def strip_control_chars (text : Str) : Str := text.filter pyIsPrintable

/-- The `'+'` → `' '` substitution of `urllib.parse.unquote_plus`. -/
def plusToSpace (c : Char) : Char := if c = '+' then ' ' else c

/-- Hex digit value, as accepted by percent-escapes. -/
def hexDigit (c : Char) : Option Nat :=
  if '0' ≤ c && c ≤ '9' then some (c.toNat - 48)
  else if 'a' ≤ c && c ≤ 'f' then some (c.toNat - 87)
  else if 'A' ≤ c && c ≤ 'F' then some (c.toNat - 55)
  else none

/-- First tokenizing pass of `urllib.parse.unquote`: a `%` followed by two hex
digits becomes a byte token, everything else stays a character token. -/
def pctTokens : Str → List (Char ⊕ Nat)
  | [] => []
  | c :: rest =>
    if c = '%' then
      match rest with
      | a :: b :: r2 =>
        match hexDigit a, hexDigit b with
        | some x, some y => Sum.inr (16 * x + y) :: pctTokens r2
        | _, _ => Sum.inl '%' :: pctTokens (a :: b :: r2)
      | [a] => Sum.inl '%' :: pctTokens [a]
      | [] => [Sum.inl '%']
    else Sum.inl c :: pctTokens rest

/-- UTF-8 continuation byte test. -/
def isUtf8Cont (b : Nat) : Bool := 0x80 ≤ b && b ≤ 0xBF

/-- The replacement character used by `errors="replace"` decoding. -/
def replChar : Char := Char.ofNat 0xFFFD

/-- UTF-8 decoding with replacement on invalid sequences, as performed by
`bytes.decode("utf-8", errors="replace")` on percent-decoded bytes. -/
def utf8Decode : List Nat → List Char
  | [] => []
  | b :: rest =>
    if b < 0x80 then Char.ofNat b :: utf8Decode rest
    else if 0xC2 ≤ b && b ≤ 0xDF then
      match rest with
      | c1 :: r =>
        if isUtf8Cont c1 then
          Char.ofNat ((b - 0xC0) * 0x40 + (c1 - 0x80)) :: utf8Decode r
        else replChar :: utf8Decode (c1 :: r)
      | [] => [replChar]
    else if 0xE0 ≤ b && b ≤ 0xEF then
      match rest with
      | c1 :: c2 :: r =>
        if isUtf8Cont c1 && isUtf8Cont c2 && !(b = 0xE0 && c1 < 0xA0)
            && !(b = 0xED && 0xA0 ≤ c1) then
          Char.ofNat ((b - 0xE0) * 0x1000 + (c1 - 0x80) * 0x40 + (c2 - 0x80))
            :: utf8Decode r
        else replChar :: utf8Decode (c1 :: c2 :: r)
      | [c1] => replChar :: utf8Decode [c1]
      | [] => [replChar]
    else if 0xF0 ≤ b && b ≤ 0xF4 then
      match rest with
      | c1 :: c2 :: c3 :: r =>
        if isUtf8Cont c1 && isUtf8Cont c2 && isUtf8Cont c3
            && !(b = 0xF0 && c1 < 0x90) && !(b = 0xF4 && 0x90 ≤ c1) then
          Char.ofNat ((b - 0xF0) * 0x40000 + (c1 - 0x80) * 0x1000
            + (c2 - 0x80) * 0x40 + (c3 - 0x80)) :: utf8Decode r
        else replChar :: utf8Decode (c1 :: c2 :: c3 :: r)
      | [c1, c2] => replChar :: utf8Decode [c1, c2]
      | [c1] => replChar :: utf8Decode [c1]
      | [] => [replChar]
    else replChar :: utf8Decode rest

/-- Second pass of `urllib.parse.unquote`: maximal runs of byte tokens are
UTF-8 decoded together, character tokens pass through.  `pending` carries
the current byte run, reversed. -/
def pctAssembleAux : List Nat → List (Char ⊕ Nat) → List Char
  | pending, [] => utf8Decode pending.reverse
  | pending, Sum.inl c :: rest => utf8Decode pending.reverse ++ c :: pctAssembleAux [] rest
  | pending, Sum.inr b :: rest => pctAssembleAux (b :: pending) rest

/-- Assemble the token stream into the decoded text. -/
def pctAssemble (l : List (Char ⊕ Nat)) : List Char := pctAssembleAux [] l

/-- `urllib.parse.unquote_plus`: `'+'` to space, then percent-decoding. -/
def unquote_plus (s : Str) : Str := pctAssemble (pctTokens (s.map plusToSpace))

/-- The principal entries of the HTML5 named-entity table used by
`html.unescape` (names that Python also accepts without the trailing
semicolon are listed a second time without it). -/
def namedEntities : List (Str × Char) :=
  [(str "amp;", '&'), (str "lt;", '<'), (str "gt;", '>'),
   (str "quot;", '"'), (str "apos;", '\''), (str "nbsp;", Char.ofNat 0xA0),
   (str "AMP;", '&'), (str "LT;", '<'), (str "GT;", '>'), (str "QUOT;", '"'),
   (str "amp", '&'), (str "lt", '<'), (str "gt", '>'), (str "quot", '"'),
   (str "AMP", '&'), (str "LT", '<'), (str "GT", '>'), (str "QUOT", '"')]

/-- Value of a decimal digit run. -/
def natFromDigits (ds : List Char) : Nat :=
  ds.foldl (fun acc c => acc * 10 + (c.toNat - 48)) 0

/-- Value of a hex digit run. -/
def natFromHexDigits (ds : List Char) : Nat :=
  ds.foldl (fun acc c => acc * 16 + ((hexDigit c).getD 0)) 0

/-- A numeric character reference value as a character: surrogates and
out-of-range values become the replacement character, as in `html.unescape`. -/
def charRefChar (v : Nat) : Char :=
  if (0xD800 ≤ v && v ≤ 0xDFFF) || 0x10FFFF < v then replChar else Char.ofNat v

/-- Parse one character/entity reference right after a `&`; returns the
decoded character and how many input characters were consumed. -/
def parseCharRef (l : Str) : Option (Char × Nat) :=
  match l with
  | '#' :: rest =>
    match rest with
    | x :: r2 =>
      if x = 'x' || x = 'X' then
        let ds := r2.takeWhile (fun c => (hexDigit c).isSome)
        if ds.isEmpty then none
        else
          let k := 2 + ds.length
          let k := if (r2.drop ds.length).head? = some ';' then k + 1 else k
          some (charRefChar (natFromHexDigits ds), k)
      else
        let ds := rest.takeWhile Char.isDigit
        if ds.isEmpty then none
        else
          let k := 1 + ds.length
          let k := if (rest.drop ds.length).head? = some ';' then k + 1 else k
          some (charRefChar (natFromDigits ds), k)
    | [] => none
  | _ =>
    (namedEntities.find? (fun p => p.1.isPrefixOf l)).map
      (fun p => (p.2, p.1.length))

/-- Worker for `html_unescape`; the fuel (initially the input length, an
upper bound on the rounds needed since every round consumes at least one
character) makes the recursion structural. -/
def unescapeAux : Nat → Str → Str
  | 0, l => l
  | _ + 1, [] => []
  | fuel + 1, c :: rest =>
    if c = '&' then
      match parseCharRef rest with
      | some (ch, k) => ch :: unescapeAux fuel (rest.drop k)
      | none => '&' :: unescapeAux fuel rest
    else c :: unescapeAux fuel rest

/-- `html.unescape`: replace character references by their characters. -/
def html_unescape (l : Str) : Str := unescapeAux l.length l

/-- One decode round of `recursive_decode`: `unquote_plus` then
`html.unescape`. -/
def decodeRound (s : Str) : Str := html_unescape (unquote_plus s)

/-- The bounded fixed-point loop of `recursive_decode`. -/
def decodeRounds : Nat → Str → Str
  | 0, current => current
  | Nat.succ n, current =>
    let decoded := decodeRound current
    if decoded = current then current else decodeRounds n decoded

/-- `recursive_decode` from `core/normalizer.py` with `max_depth = 3`. -/
def recursive_decode (text : Str) : Str :=
  if text.isEmpty then [] else decodeRounds 3 text

/-- The length guard of `normalize_log_entry`: over-long text keeps its first
and last `HALF_LEN` characters around an `"..."` marker. -/
def lengthGuard (l : Str) : Str :=
  if MAX_LEN < l.length then
    l.take HALF_LEN ++ str "..." ++ l.drop (l.length - HALF_LEN)
  else l

/-- The per-field pipeline of `normalize_log_entry`: decode, strip control
characters, lower-case, length-guard. -/
def normalizeField (s : Str) : Str :=
  lengthGuard ((strip_control_chars (recursive_decode s)).map Char.toLower)

/-- A parsed/normalized log entry: a Python dict with this fixed key set;
`none` models an absent key. -/
structure LogEntry where
  ip : Option Str := none
  time : Option Str := none
  request : Option Str := none
  status : Option Str := none
  raw : Option Str := none
  original : Option Str := none
  message : Option Str := none
  normalized_request : Option Str := none
  normalized_raw : Option Str := none
deriving DecidableEq

/-- `normalize_log_entry` from `core/normalizer.py`: copy the entry and set
`normalized_request` / `normalized_raw` from the `request` / `raw` fields. -/
def normalize_log_entry (e : LogEntry) : LogEntry :=
  { e with
    normalized_request := some (normalizeField (pyGetStr e.request)),
    normalized_raw := some (normalizeField (pyGetStr e.raw)) }

-- =====================================================================
-- src/response/firewall.py
-- =====================================================================

/-- The `AUTO_BLOCK` policy dict from `config/settings.py` (its two keys
read by the response path). -/
structure AutoBlockPolicy where
  enabled : Bool
  require_ioc : Bool
deriving DecidableEq

/-- The concrete `AUTO_BLOCK` values shipped in `config/settings.py`. -/
def settingsAutoBlock : AutoBlockPolicy := { enabled := false, require_ioc := true }

/-- One value of the block-audit ledger (`blocked_ips.json`). -/
structure BlockRecord where
  blocked_at : Str
  reason : Str
  ioc_confirmed : Bool
  os : Str
  method : Str
  rule_name : Str
deriving DecidableEq

/-- The block-audit ledger: a JSON object, keys in insertion order. -/
abbrev Ledger := List (Str × BlockRecord)

/-- `FirewallController._is_private_ip`: a `str.startswith` check against a
tuple of literal prefixes. -/
def is_private_ip (ip : Str) : Bool :=
  [str "127.", str "10.", str "192.168.",
   str "172.16.", str "172.17.", str "172.18.",
   str "172.19.", str "172.2", str "0."].any (fun p => p.isPrefixOf ip)

/-- The two `netsh` commands issued by `FirewallController._block_windows`. -/
def block_windows_cmds (ip rule_name : Str) : List (List Str) :=
  [[str "netsh", str "advfirewall", str "firewall", str "add", str "rule",
    str "name=" ++ rule_name ++ str "_IN", str "dir=in", str "action=block",
    str "remoteip=" ++ ip],
   [str "netsh", str "advfirewall", str "firewall", str "add", str "rule",
    str "name=" ++ rule_name ++ str "_OUT", str "dir=out", str "action=block",
    str "remoteip=" ++ ip]]

/-- Result of one `block_ip` call: the returned Bool, the ledger state after
the call, and the enforcement commands issued to the OS. -/
structure BlockResult where
  ret : Bool
  ledger : Ledger
  cmds : List (List Str)
deriving DecidableEq

/-- `FirewallController.block_ip` from `response/firewall.py`, with the
policy dict, the host OS name, the ledger file content and the current
timestamp string as explicit state/environment. -/
def block_ip (policy : AutoBlockPolicy) (os_type : Str) (ledger : Ledger)
    (ip reason : Str) (ioc_confirmed : Bool) (now_iso : Str) : BlockResult :=
  if !policy.enabled then ⟨false, ledger, []⟩
  else if policy.require_ioc && !ioc_confirmed then ⟨false, ledger, []⟩
  else if ip.isEmpty || ip = str "UNKNOWN" then ⟨false, ledger, []⟩
  else if is_private_ip ip then ⟨false, ledger, []⟩
  else if (ledger.lookup ip).isSome then ⟨false, ledger, []⟩
  else
    let rule_name := str "SOC_BLOCK_" ++ ip
    let cmds := if os_type = str "Windows" then block_windows_cmds ip rule_name else []
    let method := if os_type = str "Windows" then str "netsh" else str "audit-only"
    let record : BlockRecord :=
      { blocked_at := now_iso ++ str "Z", reason := reason,
        ioc_confirmed := ioc_confirmed, os := os_type, method := method,
        rule_name := rule_name }
    ⟨true, ledger ++ [(ip, record)], cmds⟩

/-- One call of a sequential execution: the arguments of a `block_ip`
invocation apart from the threaded ledger. -/
structure BlockCall where
  policy : AutoBlockPolicy
  os_type : Str
  ip : Str
  reason : Str
  ioc_confirmed : Bool
  now_iso : Str
deriving DecidableEq

/-- Run a sequence of `block_ip` calls, threading the ledger through. -/
def runBlockCalls (ledger : Ledger) (calls : List BlockCall) : Ledger :=
  calls.foldl
    (fun led c => (block_ip c.policy c.os_type led c.ip c.reason c.ioc_confirmed c.now_iso).ledger)
    ledger

-- =====================================================================
-- src/response/responder.py
-- =====================================================================

/-- The settings read by `ResponseEngine`: the `AUTO_BLOCK` policy and the
`FEATURES` email toggles from `config/settings.py`. -/
structure RespPolicy where
  enabled : Bool
  require_ioc : Bool
  email_alerts : Bool
  email_all : Bool
deriving DecidableEq

/-- A detection dict as read by `handle_detection` (`none` fields model
absent keys; the `.get` defaults are applied inside the handler). -/
structure RDetection where
  severity : Option Str := none
  ip : Option Str := none
  rule : Option Str := none
  ioc_hit : Option Bool := none
deriving DecidableEq

/-- The `(ip, rule, severity)` dedup key. -/
abbrev DedupKey := Str × Str × Str

/-- `ResponseEngine` mutable state: the dedup table (insertion order, as a
Python dict) and the one-PDF-per-run latch. -/
structure RespState where
  handled : List (DedupKey × Int)
  pdf_generated : Bool
deriving DecidableEq

/-- `ResponseEngine._cleanup_old_incidents`: drop entries older than the
10-minute TTL (times in seconds). -/
def cleanup_old_incidents (handled : List (DedupKey × Int)) (now : Int) :
    List (DedupKey × Int) :=
  handled.filter (fun kv => !(now - kv.2 > 600))

/-- Whether each of the three response steps raises inside its `try` block
(exceptions of external collaborators; all are caught and logged). -/
structure StepFailures where
  firewall : Bool
  email : Bool
  pdf : Bool
deriving DecidableEq

/-- Which of the three side-effecting steps of `handle_detection` were
entered during one call, and the decisions they took (`firewall_blocked` is
`_handle_firewall`'s return value, `email_sent` whether `send_alert` was
called; a raising step yields no decision). -/
structure RespEffects where
  firewall_step : Bool
  email_step : Bool
  pdf_step : Bool
  firewall_blocked : Bool
  email_sent : Bool
deriving DecidableEq

/-- No step entered (the early-return cases). -/
def noEffects : RespEffects := ⟨false, false, false, false, false⟩

/-- `ResponseEngine._handle_firewall`: the block decision taken inside the
firewall step (returns whether a `block_ip` call was issued). -/
def resp_handle_firewall (pol : RespPolicy) (severity ip : Str) (ioc_hit : Bool) : Bool :=
  if !pol.enabled then false
  else
    let should_block :=
      if pol.require_ioc then severity = str "Critical" && ioc_hit
      else severity = str "Critical"
    should_block && !ip.isEmpty && ip ≠ str "UNKNOWN"

/-- `ResponseEngine._handle_email`: whether `send_alert` is called. -/
def resp_handle_email (pol : RespPolicy) (severity : Str) : Bool :=
  pol.email_alerts
    && (pol.email_all || severity = str "High" || severity = str "Critical")

/-- `ResponseEngine.handle_detection` from `response/responder.py`.
`det = none` models a falsy `detection` argument.  The dedup check and
insertion happen under the lock before any step; each step runs in its own
`try` so a raising step (`fail`) never prevents the later ones, and the PDF
latch is set only when generation succeeds. -/
def handle_detection (pol : RespPolicy) (st : RespState) (det : Option RDetection)
    (now : Int) (fail : StepFailures) : RespState × RespEffects :=
  match det with
  | none => (st, noEffects)
  | some d =>
    let severity := d.severity.getD (str "Low")
    let ip := d.ip.getD (str "UNKNOWN")
    let rule := d.rule.getD (str "Unknown Threat")
    let ioc_hit := d.ioc_hit.getD false
    let incident_key : DedupKey := (ip, rule, severity)
    let handled1 := cleanup_old_incidents st.handled now
    if (handled1.lookup incident_key).isSome then
      ({ st with handled := handled1 }, noEffects)
    else
      let handled2 := handled1 ++ [(incident_key, now)]
      let fw_blocked := !fail.firewall && resp_handle_firewall pol severity ip ioc_hit
      let email_sent := !fail.email && resp_handle_email pol severity
      let pdf_attempt := !st.pdf_generated
      let pdf_done := st.pdf_generated || (pdf_attempt && !fail.pdf)
      (⟨handled2, pdf_done⟩, ⟨true, true, pdf_attempt, fw_blocked, email_sent⟩)

-- =====================================================================
-- src/config/severity_map.py
-- =====================================================================

/-- `SEVERITY_LEVELS` from `config/severity_map.py`. -/
def SEVERITY_LEVELS : List Str :=
  [str "Critical", str "High", str "Medium", str "Low"]

/-- `THREAT_SEVERITY_MAP` from `config/severity_map.py`. -/
def THREAT_SEVERITY_MAP : List (Str × Str) :=
  [(str "SQL Injection", str "Critical"),
   (str "SQLi - Tautology / OR 1=1", str "Critical"),
   (str "Command Injection / Shell", str "Critical"),
   (str "Sensitive File Access", str "Critical"),
   (str "SSRF / Internal Resource Access", str "Critical"),
   (str "Serialized Object Detected (Java)", str "Critical"),
   (str "Serialized Object Detected (Python)", str "Critical"),
   (str "Serialized Object Detected (.NET)", str "Critical"),
   (str "Malicious Package Download", str "Critical"),
   (str "CI/CD Script Execution", str "Critical"),
   (str "Unexpected Build Dependency Fetch", str "Critical"),
   (str "XSS", str "High"),
   (str "XSS - Advanced Payloads", str "High"),
   (str "Credential Stuffing Probe", str "High"),
   (str "Unauthorized Admin Access", str "High"),
   (str "Plaintext Credential Exposure", str "High"),
   (str "IDOR / Object Access Violation", str "Medium"),
   (str "Brute Force Attempt", str "Medium"),
   (str "Sensitive Data Over HTTP", str "Medium"),
   (str "Debug / Error Exposure", str "Medium"),
   (str "API Rate Abuse / Resource Exhaustion", str "Medium"),
   (str "Unhandled Exception Exposure", str "Medium"),
   (str "Directory Traversal", str "Medium"),
   (str "Failed Login", str "Low"),
   (str "Weak Crypto Indicator", str "Low"),
   (str "Excessive Data Exposure", str "Low"),
   (str "Repeated Error Without Alerting", str "Low"),
   (str "Discovery / Recon Probes", str "Low")]

/-- `get_severity` from `config/severity_map.py`: strip the name, look it up,
default to Low. -/
def get_severity (threat_name : Str) : Str :=
  (THREAT_SEVERITY_MAP.lookup (pyStrip threat_name)).getD (str "Low")

-- =====================================================================
-- src/core/rules.py
-- =====================================================================

/-- `DETECTION_RULES` from `core/rules.py`: the ordered rule-name to
regex-pattern table (patterns carried as data; the regex search operation
itself is an injected collaborator, see `Matcher`). -/
def DETECTION_RULES : List (Str × Str) :=
  [(str "SQL Injection",
    str "(\\bunion\\s+select\\b|\\bselect\\s+\\*\\b|\\bdrop\\s+table\\b|\\binsert\\s+into\\b|--|\\bor\\b\\s+.+?=.+?)"),
   (str "SQLi - Tautology / OR 1=1",
    str "(\\bor\\b\\s*1\\s*=\\s*1|\x27?\\s*or\\s*\x27?\\s*1\x27\\s*=\\s*\x271|\\bunion\\b.*\\bselect\\b)"),
   (str "Command Injection / Shell",
    str "(\\|\\||&&|\x60|\\$\\(|\\b(cmd|exec|system)\\s*=|\\bwget\\b|\\bcurl\\b)"),
   (str "XSS",
    str "(<script\\b|javascript:|onerror\\s*=|onload\\s*=)"),
   (str "XSS - Advanced Payloads",
    str "(<svg\\b|<iframe\\b|document\\.cookie|window\\.location)"),
   (str "IDOR / Object Access Violation",
    str "(/api/[^ ]*/\\d+|\\b(id|user|account)\\s*=\\s*\\d+)"),
   (str "Unauthorized Admin Access",
    str "(/admin\\b|/wp-admin\\b|/manager/html)"),
   (str "Failed Login",
    str "(failed\\s+login|invalid\\s+password|authentication\\s+failure|\\b401\\b)"),
   (str "Credential Stuffing Probe",
    str "(\\b(username|login|user)\\b.\x7b1,80\x7d\\b(password|pass|pwd)\\b)"),
   (str "Brute Force Attempt",
    str "(login).*?\\b(401|403)\\b"),
   (str "Sensitive File Access",
    str "(/etc/passwd|/etc/shadow|\\.env\\b|\\.git/|config\\.php|web\\.config)"),
   (str "Debug / Error Exposure",
    str "(stack\\s+trace|exception|traceback|fatal\\s+error)"),
   (str "Plaintext Credential Exposure",
    str "(password\\s*=|passwd\\s*=|secret\\s*=|api[_-]?key\\s*=)"),
   (str "Weak Crypto Indicator",
    str "\\b(md5|sha1|des|rc4)\\b"),
   (str "Sensitive Data Over HTTP",
    str "(http://).*?(token|password|session)"),
   (str "Serialized Object Detected (Java)",
    str "(rO0AB|java\\.io\\.ObjectInputStream)"),
   (str "Serialized Object Detected (Python)",
    str "(pickle\\.loads|__reduce__)"),
   (str "Serialized Object Detected (.NET)",
    str "(BinaryFormatter|ObjectStateFormatter)"),
   (str "SSRF / Internal Resource Access",
    str "(http://(127\\.0\\.0\\.1|localhost|169\\.254\\.169\\.254|0\\.0\\.0\\.0))"),
   (str "Malicious Package Download",
    str "(pip\\s+install|npm\\s+install|curl|wget).*?(github\\.com|raw\\.githubusercontent\\.com)"),
   (str "CI/CD Script Execution",
    str "(bash\\s+-c|powershell\\s+-enc|sh\\s+-c)"),
   (str "Unexpected Build Dependency Fetch",
    str "(package\\.json|requirements\\.txt).*?(http|https)"),
   (str "API Rate Abuse / Resource Exhaustion",
    str "(/api/).*?\\b(429|too\\s+many\\s+requests)\\b"),
   (str "Excessive Data Exposure",
    str "\\?.\x7b300,\x7d"),
   (str "Repeated Error Without Alerting",
    str "\\b(500|502|503|504)\\b"),
   (str "Unhandled Exception Exposure",
    str "\\b(NullPointerException|IndexError|KeyError|ValueError)\\b")]

-- =====================================================================
-- src/core/detector.py
-- =====================================================================

/-- The injected regex-search collaborator: `m pattern text` models
`re.compile(pattern, re.IGNORECASE).search(text)` being truthy. -/
abbrev Matcher := Str → Str → Bool

/-- A Detection record as produced by the detection engine. -/
structure Detection where
  rule : Str
  severity : Str
  ip : Str
  time : Str
  payload : Str
  raw : Str
  ioc_hit : Bool
deriving DecidableEq

/-- `IOCEngine.is_malicious` from `intelligence/ioc_loader.py`: pure set
membership, with the unknown sentinel short-circuited. -/
def is_malicious (iocs : List Str) (ip : Str) : Bool :=
  if ip.isEmpty || ip = str "UNKNOWN" then false else iocs.contains ip

/-- The payload selection of `analyze_entry`:
`entry.get("normalized_request") or entry.get("message") or ""`. -/
def detectorPayload (e : LogEntry) : Str :=
  if pyTruthy e.normalized_request then pyGetStr e.normalized_request
  else if pyTruthy e.message then pyGetStr e.message
  else []

/-- The raw-evidence selection of `analyze_entry`:
`entry.get("raw") or entry.get("original") or entry.get("message", "")`. -/
def detectorRaw (e : LogEntry) : Str :=
  if pyTruthy e.raw then pyGetStr e.raw
  else if pyTruthy e.original then pyGetStr e.original
  else pyGetStr e.message

/-- The guarded IOC check of `analyze_entry`: only consulted when an engine
is injected and the source address is a usable value (query failures are
swallowed to no-hit and cannot occur in this pure model). -/
def iocHitOf (ioc_engine : Option (List Str)) (e : LogEntry) : Bool :=
  match ioc_engine with
  | none => false
  | some iocs =>
    let ip := e.ip.getD (str "UNKNOWN")
    if !ip.isEmpty && ip ≠ str "UNKNOWN" then is_malicious iocs ip else false

/-- `DetectionEngine._escalate_severity` from `core/detector.py`. -/
def escalate_severity (severity : Str) (ioc_hit : Bool) : Str :=
  if !ioc_hit || !(SEVERITY_LEVELS.contains severity) then severity
  else
    ([(str "Low", str "Medium"), (str "Medium", str "High"),
      (str "High", str "Critical"),
      (str "Critical", str "Critical")].lookup severity).getD severity

/-- `DetectionEngine.analyze_entry` from `core/detector.py`.  The
`seen_rules` guard of the source is a no-op because dict keys are distinct;
rule matching uses the injected `Matcher` on the selected payload. -/
def analyze_entry (m : Matcher) (ioc_engine : Option (List Str))
    (e : LogEntry) : List Detection :=
  let payload := detectorPayload e
  let ip := e.ip.getD (str "UNKNOWN")
  let timestamp := e.time.getD (str "UNKNOWN")
  let raw := detectorRaw e
  let ioc_hit := iocHitOf ioc_engine e
  let detections :=
    (DETECTION_RULES.filter (fun r => m r.2 payload)).map (fun r =>
      { rule := r.1, severity := escalate_severity (get_severity r.1) ioc_hit,
        ip := ip, time := timestamp, payload := payload, raw := raw,
        ioc_hit := ioc_hit : Detection })
  if ioc_hit && detections.isEmpty then
    [{ rule := str "Threat Intelligence Match", severity := str "Critical",
       ip := ip, time := timestamp, payload := str "N/A (IP Reputation Match)",
       raw := raw, ioc_hit := true }]
  else detections

-- =====================================================================
-- src/intelligence/ioc_loader.py
-- =====================================================================

/-- The reputation engine's state: the in-memory IOC set (as an
insertion-ordered duplicate-free list) and the last successful-update time
(epoch seconds). -/
structure IOCState where
  iocs : List Str
  last_updated : Int
deriving DecidableEq

/-- `set.add`: append if not already present. -/
def addUnique (acc : List Str) (x : Str) : List Str :=
  if acc.contains x then acc else acc ++ [x]

/-- The per-feed line processing of `update_iocs`: split the response text
into lines, strip, drop empties and `#` comments. -/
def parseFeedText (txt : Str) : List Str :=
  ((pySplitlines txt).map pyStrip).filter
    (fun l => !l.isEmpty && !((str "#").isPrefixOf l))

/-- Collect all feed responses into the `collected` set (`none` models a
feed whose fetch raised; its exception is caught and logged). -/
def collectFeeds (feeds : List (Option Str)) : List Str :=
  feeds.foldl
    (fun acc r =>
      match r with
      | none => acc
      | some txt => (parseFeedText txt).foldl addUnique acc)
    []

/-- `IOCEngine.update_iocs` from `intelligence/ioc_loader.py`.  Returns the
new state and whether the external fetch was performed (the throttle gate
was passed).  `feeds` are the responses of the configured feed sources; the
state (and cache) are replaced only when at least one source returned
data. -/
def update_iocs (st : IOCState) (now : Int) (feeds : List (Option Str)) :
    IOCState × Bool :=
  if now - st.last_updated < 3600 then (st, false)
  else
    let collected := collectFeeds feeds
    if !collected.isEmpty then (⟨collected, now⟩, true)
    else (st, true)

-- =====================================================================
-- src/core/correlation.py
-- =====================================================================

/-- A detection event as consumed by the correlation engine (carrying at
least ip/time/rule/severity/ioc_hit; the `.get` defaults of the source are
taken as the stored values). -/
structure CorDetection where
  ip : Str
  time : Str
  rule : Str
  severity : Str
  ioc_hit : Bool
deriving DecidableEq

/-- A correlated incident record (`itype` models the `"type"` key). -/
structure Incident where
  ip : Str
  itype : Str
  severity : Str
  count : Nat
  ioc_confirmed : Bool
  evidence : List CorDetection
deriving DecidableEq

/-- Month-abbreviation table of the `%b` directive. -/
def monthAbbr : List (Str × Nat) :=
  [(str "Jan", 1), (str "Feb", 2), (str "Mar", 3), (str "Apr", 4),
   (str "May", 5), (str "Jun", 6), (str "Jul", 7), (str "Aug", 8),
   (str "Sep", 9), (str "Oct", 10), (str "Nov", 11), (str "Dec", 12)]

/-- Days from the civil epoch 1970-01-01 (standard civil-calendar count;
valid for the positive years produced by the accepted formats). -/
def daysFromCivil (y m d : Int) : Int :=
  let y' := if m ≤ 2 then y - 1 else y
  let era := (if 0 ≤ y' then y' else y' - 399) / 400
  let yoe := y' - era * 400
  let mp := if 2 < m then m - 3 else m + 9
  let doy := (153 * mp + 2) / 5 + d - 1
  let doe := yoe * 365 + yoe / 4 - yoe / 100 + doy
  era * 146097 + doe - 719468

/-- A calendar time as epoch seconds (datetimes are compared and shifted by
`timedelta`s; seconds are a faithful carrier for both). -/
def toEpoch (y mo d hh mi ss : Nat) : Int :=
  daysFromCivil (Int.ofNat y) (Int.ofNat mo) (Int.ofNat d) * 86400
    + Int.ofNat hh * 3600 + Int.ofNat mi * 60 + Int.ofNat ss

/-- Two-digit number. -/
def twoDigits (a b : Char) : Option Nat :=
  if a.isDigit && b.isDigit then some ((a.toNat - 48) * 10 + (b.toNat - 48))
  else none

/-- The principal shapes accepted by `datetime.fromisoformat`:
`YYYY-MM-DD`, optionally followed by `"T"` or `" "` and `HH:MM:SS`
(fractional seconds and UTC offsets are beyond this model's scope). -/
def parseIso (s : Str) : Option Int :=
  match s with
  | y1 :: y2 :: y3 :: y4 :: '-' :: m1 :: m2 :: '-' :: d1 :: d2 :: rest =>
    if y1.isDigit && y2.isDigit && y3.isDigit && y4.isDigit then
      match twoDigits m1 m2, twoDigits d1 d2 with
      | some mo, some d =>
        if 1 ≤ mo && mo ≤ 12 && 1 ≤ d && d ≤ 31 then
          let y := natFromDigits [y1, y2, y3, y4]
          match rest with
          | [] => some (toEpoch y mo d 0 0 0)
          | sep :: h1 :: h2 :: ':' :: i1 :: i2 :: ':' :: s1 :: s2 :: [] =>
            if sep = 'T' || sep = ' ' then
              match twoDigits h1 h2, twoDigits i1 i2, twoDigits s1 s2 with
              | some hh, some mi, some ss =>
                if hh ≤ 23 && mi ≤ 59 && ss ≤ 59 then
                  some (toEpoch y mo d hh mi ss)
                else none
              | _, _, _ => none
            else none
          | _ => none
        else none
      | _, _ => none
    else none
  | _ => none

/-- `datetime.strptime(_, "%d/%b/%Y:%H:%M:%S")`: the Apache timestamp shape
(the whole string must match). -/
def parseApache (s : Str) : Option Int :=
  match s with
  | d1 :: d2 :: '/' :: a :: b :: c :: '/' :: y1 :: y2 :: y3 :: y4 :: ':'
      :: h1 :: h2 :: ':' :: i1 :: i2 :: ':' :: s1 :: s2 :: [] =>
    match twoDigits d1 d2, monthAbbr.lookup [a, b, c] with
    | some d, some mo =>
      if y1.isDigit && y2.isDigit && y3.isDigit && y4.isDigit
          && 1 ≤ d && d ≤ 31 then
        match twoDigits h1 h2, twoDigits i1 i2, twoDigits s1 s2 with
        | some hh, some mi, some ss =>
          if hh ≤ 23 && mi ≤ 59 && ss ≤ 59 then
            some (toEpoch (natFromDigits [y1, y2, y3, y4]) mo d hh mi ss)
          else none
        | _, _, _ => none
      else none
    | _, _ => none
  | _ => none

/-- `CorrelationEngine._parse_time`: best-effort parsing, never raises;
falsy or sentinel timestamps (and unparseable ones) become `now`
(`datetime.utcnow()`), otherwise ISO is tried first, then the Apache shape
on the part before the first space. -/
def parse_time (now : Int) (time_str : Str) : Int :=
  if time_str.isEmpty || time_str = str "UNKNOWN" then now
  else
    match parseIso time_str with
    | some t => t
    | none =>
      match parseApache (time_str.takeWhile (fun c => c ≠ ' ')) with
      | some t => t
      | none => now

/-- `CorrelationEngine._filter_time_window` (window in seconds): keep events
at or after the latest event's time minus the window.  The source's
`except` fallbacks are dead because `_parse_time` never raises. -/
def filter_time_window (now window : Int) (events : List CorDetection) :
    List CorDetection :=
  match events.getLast? with
  | none => []
  | some lastEv =>
    let cutoff := parse_time now lastEv.time - window
    events.filter (fun e => decide (cutoff ≤ parse_time now e.time))

/-- The stable `events.sort(key=lambda x: x.get("time", ""))` of
`correlate` (Python's sort is stable; a stable insertion sort computes the
same list). -/
def sortByTime (events : List CorDetection) : List CorDetection :=
  List.insertionSort (fun a b => strLe a.time b.time = true) events

/-- One step of grouping by source IP (a `defaultdict(list)` keyed in first-
occurrence order, each group in arrival order). -/
def groupInsert (acc : List (Str × List CorDetection)) (d : CorDetection) :
    List (Str × List CorDetection) :=
  if acc.any (fun p => p.1 = d.ip) then
    acc.map (fun p => if p.1 = d.ip then (p.1, p.2 ++ [d]) else p)
  else acc ++ [(d.ip, [d])]

/-- `grouped_by_ip` of `correlate`. -/
def groupByIp (detections : List CorDetection) : List (Str × List CorDetection) :=
  detections.foldl groupInsert []

/-- `CorrelationEngine._analyze_ip` from `core/correlation.py`: the four
independent pattern rules over one address's in-window events. -/
def analyze_ip (ip : Str) (events : List CorDetection) : List Incident :=
  if events.isEmpty then []
  else
    let failed_logins := events.filter (fun e => strContains e.rule (str "Failed Login"))
    let brute :=
      if 5 ≤ failed_logins.length then
        [{ ip := ip, itype := str "Brute Force Login Attack",
           severity := str "High", count := failed_logins.length,
           ioc_confirmed := failed_logins.any (fun e => e.ioc_hit),
           evidence := failed_logins : Incident }]
      else []
    let scanner_hits := events.filter (fun e => strContains e.rule (str "Scanner"))
    let exploit_hits := events.filter (fun e => e.severity = str "Critical")
    let recon :=
      if !scanner_hits.isEmpty && !exploit_hits.isEmpty then
        [{ ip := ip, itype := str "Reconnaissance Followed by Exploitation",
           severity := str "Critical",
           count := scanner_hits.length + exploit_hits.length,
           ioc_confirmed := exploit_hits.any (fun e => e.ioc_hit),
           evidence := scanner_hits ++ exploit_hits : Incident }]
      else []
    let repeated :=
      if 3 ≤ exploit_hits.length then
        [{ ip := ip, itype := str "Repeated Critical Attack Attempts",
           severity := str "Critical", count := exploit_hits.length,
           ioc_confirmed := exploit_hits.any (fun e => e.ioc_hit),
           evidence := exploit_hits : Incident }]
      else []
    let volume :=
      if 10 ≤ events.length then
        [{ ip := ip, itype := str "High Volume Suspicious Activity",
           severity := str "Medium", count := events.length,
           ioc_confirmed := events.any (fun e => e.ioc_hit),
           evidence := events : Incident }]
      else []
    brute ++ recon ++ repeated ++ volume

/-- The default correlation window: `timedelta(minutes=5)` in seconds. -/
def defaultWindow : Int := 300

/-- `CorrelationEngine.correlate` from `core/correlation.py`: group by
source IP, sort each group by timestamp string, restrict to the trailing
window, analyze per address and concatenate the incidents. -/
def correlate (now window : Int) (detections : List CorDetection) : List Incident :=
  if detections.isEmpty then []
  else
    ((groupByIp detections).map
      (fun p => analyze_ip p.1 (filter_time_window now window (sortByTime p.2)))).flatten

-- =====================================================================
-- Claim-side definitions and concrete instances
-- =====================================================================

/-- Split on a separator character (Python `str.split(sep)`). -/
def splitOnChar (sep : Char) : Str → List Str
  | [] => [[]]
  | c :: rest =>
    let r := splitOnChar sep rest
    if c = sep then [] :: r
    else
      match r with
      | [] => [[c]]
      | h :: t => (c :: h) :: t

/-- A nonempty all-digit run as a number. -/
def decNat (l : Str) : Option Nat :=
  if !l.isEmpty && l.all Char.isDigit then some (natFromDigits l) else none

/-- The four octets of a dotted-quad IPv4 address, when well formed. -/
def ipv4Octets (ip : Str) : Option (Nat × Nat × Nat × Nat) :=
  match splitOnChar '.' ip with
  | [a, b, c, d] =>
    match decNat a, decNat b, decNat c, decNat d with
    | some x, some y, some z, some w =>
      if x ≤ 255 && y ≤ 255 && z ≤ 255 && w ≤ 255 then some (x, y, z, w)
      else none
    | _, _, _, _ => none
  | _ => none

/-- The private/loopback ranges named by the specification: 127.0.0.0/8,
10.0.0.0/8, 192.168.0.0/16 and 172.16.0.0/12 (this is the spec's wording;
the code's `_is_private_ip` uses string prefixes instead). -/
def inSpecPrivateRanges (ip : Str) : Bool :=
  match ipv4Octets ip with
  | some (a, b, _, _) =>
    a = 127 || a = 10 || (a = 192 && b = 168) || (a = 172 && 16 ≤ b && b ≤ 31)
  | none => false

/-- The dedup key computed by `handle_detection` for a detection dict. -/
def dedupKeyOf (d : RDetection) : DedupKey :=
  (d.ip.getD (str "UNKNOWN"), d.rule.getD (str "Unknown Threat"),
   d.severity.getD (str "Low"))

/-- The decoded, control-stripped, lower-cased text of one field, before the
length guard is applied. -/
def preCap (s : Str) : Str :=
  (strip_control_chars (recursive_decode s)).map Char.toLower

/-- The payload selection stated by the specification (refinement target):
prefer the normalized request, fall back to the entry's raw message. -/
def claimPayload (e : LogEntry) : Str :=
  if pyTruthy e.normalized_request then pyGetStr e.normalized_request
  else pyGetStr e.raw

/-- The exact one-level escalation table stated by the specification
(refinement target for `_escalate_severity`). -/
def specBump (s : Str) : Str :=
  if s = str "Low" then str "Medium"
  else if s = str "Medium" then str "High"
  else if s = str "High" then str "Critical"
  else if s = str "Critical" then str "Critical"
  else s

/-- An entry whose request field is 2001 characters long. -/
def bigEntry : LogEntry := { request := some (List.replicate 2001 'a') }

/-- An entry carrying only a source address and a raw message. -/
def rawOnlyEntry : LogEntry :=
  { ip := some (str "9.9.9.9")
    raw := some (str "<script>alert(1)</script>") }

/-- An entry carrying only a known-malicious source address. -/
def iocOnlyEntry : LogEntry := { ip := some (str "7.7.7.7") }

/-- A matcher that fires on any nonempty text. -/
def anyTextMatcher : Matcher := fun _ t => !t.isEmpty

/-- A matcher that never fires. -/
def neverMatcher : Matcher := fun _ _ => false

/-- A matcher that fires on every text. -/
def alwaysMatcher : Matcher := fun _ _ => true

/-- A Failed Login detection from one address, with the sentinel time. -/
def bruteDet : CorDetection :=
  { ip := str "5.5.5.5"
    time := str "UNKNOWN"
    rule := str "Failed Login"
    severity := str "Low"
    ioc_hit := false }

/-- A ledger record used in C3 scenarios. -/
def demoRecord : BlockRecord :=
  { blocked_at := str "t"
    reason := str "r"
    ioc_confirmed := false
    os := str "Linux"
    method := str "audit-only"
    rule_name := str "SOC_BLOCK_9.9.9.9" }

/-- A critical detection used in responder scenarios. -/
def critDet : RDetection :=
  { severity := some (str "Critical")
    ip := some (str "1.2.3.4")
    rule := some (str "XSS")
    ioc_hit := some true }

-- =====================================================================
-- Association-list helper lemmas
-- =====================================================================

theorem lookupAppendSome [BEq α] (l l2 : List (α × β)) (k : α) (v : β)
    (h : l.lookup k = some v) : (l ++ l2).lookup k = some v := by
  induction l with
  | nil => simp [List.lookup] at h
  | cons p l ih =>
    simp only [List.lookup] at h
    simp only [List.cons_append, List.lookup]
    cases hk : (k == p.1) with
    | true => simp [hk] at h; simp [h]
    | false => simp [hk] at h ⊢; exact ih h

theorem lookupAppendNone [BEq α] (l l2 : List (α × β)) (k : α)
    (h : l.lookup k = none) : (l ++ l2).lookup k = l2.lookup k := by
  induction l with
  | nil => simp
  | cons p l ih =>
    simp only [List.lookup] at h
    simp only [List.cons_append, List.lookup]
    cases hk : (k == p.1) with
    | true => simp [hk] at h
    | false => simp [hk] at h ⊢; exact ih h

theorem lookupNoneNotMem [BEq α] [LawfulBEq α] (l : List (α × β)) (k : α)
    (h : l.lookup k = none) : ∀ p ∈ l, p.1 ≠ k := by
  induction l with
  | nil => intro p hp; simp at hp
  | cons q l ih =>
    intro p hp
    simp only [List.lookup] at h
    cases hk : (k == q.1) with
    | true => simp [hk] at h
    | false =>
      rw [hk] at h
      rcases List.mem_cons.mp hp with hq | hm
      · subst hq; intro he; rw [he] at hk; simp at hk
      · exact ih h p hm

theorem lookupIsSomeOfMem [BEq α] [LawfulBEq α] (l : List (α × β)) (k : α) (v : β)
    (h : (k, v) ∈ l) : (l.lookup k).isSome = true := by
  induction l with
  | nil => simp at h
  | cons q l ih =>
    simp only [List.lookup]
    cases hk : (k == q.1) with
    | true => simp
    | false =>
      simp
      rcases List.mem_cons.mp h with hq | hm
      · rw [← hq] at hk; simp at hk
      · simpa using ih hm

theorem lookupGetDPred [BEq α] (P : β → Prop) (l : List (α × β)) (k : α) (d : β)
    (hall : ∀ p ∈ l, P p.2) (hd : P d) : P ((l.lookup k).getD d) := by
  induction l with
  | nil => simpa [List.lookup] using hd
  | cons q l ih =>
    simp only [List.lookup]
    cases hk : (k == q.1) with
    | true => simpa using hall q (List.mem_cons_self q l)
    | false =>
      simp only [Option.getD]
      exact ih (fun p hp => hall p (List.mem_cons_of_mem q hp))

-- =====================================================================
-- Claim theorems
-- =====================================================================

/-- Claim C1: every address in 127.0.0.0/8, 10.0.0.0/8, 192.168.0.0/16 or
172.16.0.0/12 is never enforced against and never written to the ledger.
The code violates this: 172.30.0.1 lies in 172.16.0.0/12, yet
`_is_private_ip` misses it (its prefixes stop at "172.19." / "172.2"), so an
enabled policy issues the netsh commands and writes a ledger entry. -/
theorem C1_private_guard_misses_range :
    inSpecPrivateRanges (str "172.30.0.1") = true
    ∧ is_private_ip (str "172.30.0.1") = false
    ∧ (block_ip ⟨true, false⟩ (str "Windows") [] (str "172.30.0.1")
        (str "Brute Force") true (str "2024-01-01T00:00:00")).ret = true
    ∧ (block_ip ⟨true, false⟩ (str "Windows") [] (str "172.30.0.1")
        (str "Brute Force") true (str "2024-01-01T00:00:00")).cmds ≠ []
    ∧ ((block_ip ⟨true, false⟩ (str "Windows") [] (str "172.30.0.1")
        (str "Brute Force") true (str "2024-01-01T00:00:00")).ledger.lookup
          (str "172.30.0.1")).isSome = true := by
  decide

/-- Claim C4: normalization is idempotent — re-normalizing the output of
`normalize_log_entry` leaves `normalized_request` and `normalized_raw`
unchanged, for arbitrary entries (the normalized fields are recomputed from
the `request`/`raw` fields, which pass through untouched). -/
theorem C4_normalize_idempotent (e : LogEntry) :
    (normalize_log_entry (normalize_log_entry e)).normalized_request
        = (normalize_log_entry e).normalized_request
    ∧ (normalize_log_entry (normalize_log_entry e)).normalized_raw
        = (normalize_log_entry e).normalized_raw :=
  ⟨rfl, rfl⟩

/-- Claim C9, counterexample: two `update_iocs` calls 10 seconds apart can
both perform the external fetch and change the in-memory set, when the first
fetch fails — a failed fetch does not advance `last_updated`, so the
throttle does not suppress the second call. -/
theorem C9_two_fetches_within_hour :
    (update_iocs ⟨[], 0⟩ 3600 [none]).2 = true
    ∧ (update_iocs ⟨[], 0⟩ 3600 [none]).1 = ⟨[], 0⟩
    ∧ ((3610 : Int) - 3600 < 3600)
    ∧ (update_iocs (update_iocs ⟨[], 0⟩ 3600 [none]).1 3610
        [some (str "9.9.9.9")]).2 = true
    ∧ (update_iocs (update_iocs ⟨[], 0⟩ 3600 [none]).1 3610
          [some (str "9.9.9.9")]).1.iocs
        ≠ (update_iocs ⟨[], 0⟩ 3600 [none]).1.iocs := by
  decide

/-- Claim C9, amended: a call less than 1 hour after the previous successful
update is a silent no-op (no fetch, no state change); hence when the first
of two calls within an hour performs a successful update, the fetch happens
at most once and the set is unchanged after the second call; and a refresh
in which no feed returns data leaves the set and `last_updated` untouched
(though it does perform a fetch). -/
theorem C9_throttle_amended :
    (∀ (st : IOCState) (now : Int) (feeds : List (Option Str)),
      now - st.last_updated < 3600 → update_iocs st now feeds = (st, false))
    ∧ (∀ (st : IOCState) (now1 now2 : Int) (feeds1 feeds2 : List (Option Str)),
      3600 ≤ now1 - st.last_updated →
      (collectFeeds feeds1).isEmpty = false →
      now2 - now1 < 3600 →
      update_iocs st now1 feeds1 = (⟨collectFeeds feeds1, now1⟩, true)
        ∧ update_iocs ⟨collectFeeds feeds1, now1⟩ now2 feeds2
            = (⟨collectFeeds feeds1, now1⟩, false))
    ∧ (∀ (st : IOCState) (now : Int) (feeds : List (Option Str)),
      3600 ≤ now - st.last_updated →
      (collectFeeds feeds).isEmpty = true →
      update_iocs st now feeds = (st, true)) := by
  refine ⟨?_, ?_, ?_⟩
  · intro st now feeds h
    simp [update_iocs, h]
  · intro st now1 now2 feeds1 feeds2 h1 h2 h3
    constructor
    · simp [update_iocs, h2]
      omega
    · simp [update_iocs, h3]
  · intro st now feeds h1 h2
    simp [update_iocs, h2]
    omega

/-- Witness for C9's amended theorem at concrete states and feeds. -/
theorem C9_throttle_amended_witness :
    update_iocs ⟨[str "1.1.1.1"], 1000⟩ 2000 [some (str "2.2.2.2")]
        = (⟨[str "1.1.1.1"], 1000⟩, false)
    ∧ (update_iocs ⟨[], 0⟩ 3600 [some (str "2.2.2.2")]
          = (⟨collectFeeds [some (str "2.2.2.2")], 3600⟩, true)
        ∧ update_iocs ⟨collectFeeds [some (str "2.2.2.2")], 3600⟩ 3700 [none]
            = (⟨collectFeeds [some (str "2.2.2.2")], 3600⟩, false))
    ∧ update_iocs ⟨[str "3.3.3.3"], 0⟩ 3600 [none] = (⟨[str "3.3.3.3"], 0⟩, true) :=
  ⟨C9_throttle_amended.1 ⟨[str "1.1.1.1"], 1000⟩ 2000 [some (str "2.2.2.2")] (by decide),
   C9_throttle_amended.2.1 ⟨[], 0⟩ 3600 3700 [some (str "2.2.2.2")] [none]
     (by decide) (by decide) (by decide),
   C9_throttle_amended.2.2 ⟨[str "3.3.3.3"], 0⟩ 3600 [none] (by decide) (by decide)⟩

/-- Claim C2: a second `handle_detection` call with the same
`(ip, rule, severity)` key while the first call's dedup entry is at most
10 minutes old returns before performing any of the firewall, alert or
report steps; across the two calls each side-effecting step runs exactly
once (the first call runs all three, the second none). -/
theorem C2_dedup_suppresses_second_call
    (pol : RespPolicy) (st : RespState) (d : RDetection) (now1 now2 : Int)
    (f1 f2 : StepFailures)
    (hkey : ((cleanup_old_incidents st.handled now1).lookup (dedupKeyOf d)).isSome = false)
    (hpdf : st.pdf_generated = false)
    (h1 : now1 ≤ now2) (h2 : now2 - now1 ≤ 600) :
    (handle_detection pol st (some d) now1 f1).2.firewall_step = true
    ∧ (handle_detection pol st (some d) now1 f1).2.email_step = true
    ∧ (handle_detection pol st (some d) now1 f1).2.pdf_step = true
    ∧ (handle_detection pol (handle_detection pol st (some d) now1 f1).1
        (some d) now2 f2).2 = noEffects := by
  have hkey' : (List.lookup (d.ip.getD (str "UNKNOWN"), d.rule.getD (str "Unknown Threat"),
      d.severity.getD (str "Low")) (cleanup_old_incidents st.handled now1)).isSome = false := hkey
  have e1 : handle_detection pol st (some d) now1 f1
      = (⟨cleanup_old_incidents st.handled now1
            ++ [((d.ip.getD (str "UNKNOWN"), d.rule.getD (str "Unknown Threat"),
                  d.severity.getD (str "Low")), now1)],
          st.pdf_generated || (!st.pdf_generated && !f1.pdf)⟩,
         ⟨true, true, !st.pdf_generated,
          !f1.firewall && resp_handle_firewall pol (d.severity.getD (str "Low"))
            (d.ip.getD (str "UNKNOWN")) (d.ioc_hit.getD false),
          !f1.email && resp_handle_email pol (d.severity.getD (str "Low"))⟩) := by
    simp [handle_detection, hkey']
  have hmem : ((d.ip.getD (str "UNKNOWN"), d.rule.getD (str "Unknown Threat"),
      d.severity.getD (str "Low")), now1) ∈
      cleanup_old_incidents ((handle_detection pol st (some d) now1 f1).1.handled) now2 := by
    rw [e1]
    apply List.mem_filter.mpr
    refine ⟨by simp, ?_⟩
    simp
    omega
  have hsome := lookupIsSomeOfMem _ _ _ hmem
  refine ⟨by rw [e1], by rw [e1], by rw [e1]; simp [hpdf], ?_⟩
  generalize hG : (handle_detection pol st (some d) now1 f1).1 = X at hsome ⊢
  simp only [handle_detection]
  simp [hsome]

/-- Witness for C2 at a concrete detection, empty initial state and calls
300 seconds apart. -/
theorem C2_dedup_suppresses_second_call_witness :
    (handle_detection ⟨false, true, false, false⟩ ⟨[], false⟩ (some critDet) 0
      ⟨false, false, false⟩).2.firewall_step = true
    ∧ (handle_detection ⟨false, true, false, false⟩ ⟨[], false⟩ (some critDet) 0
        ⟨false, false, false⟩).2.email_step = true
    ∧ (handle_detection ⟨false, true, false, false⟩ ⟨[], false⟩ (some critDet) 0
        ⟨false, false, false⟩).2.pdf_step = true
    ∧ (handle_detection ⟨false, true, false, false⟩
        (handle_detection ⟨false, true, false, false⟩ ⟨[], false⟩ (some critDet) 0
          ⟨false, false, false⟩).1
        (some critDet) 300 ⟨false, false, false⟩).2 = noEffects :=
  C2_dedup_suppresses_second_call ⟨false, true, false, false⟩ ⟨[], false⟩ critDet 0 300
    ⟨false, false, false⟩ ⟨false, false, false⟩ (by decide) rfl (by decide) (by decide)

/-- Claim C10: the dedup key is recorded before any side-effecting step, so
even when the firewall, alert and report steps all raise, the key is stored
under the current time, and an identical detection within the TTL is
suppressed with no retry of the failed steps. -/
theorem C10_key_recorded_despite_failures
    (pol : RespPolicy) (st : RespState) (d : RDetection) (now1 now2 : Int)
    (f2 : StepFailures)
    (hkey : ((cleanup_old_incidents st.handled now1).lookup (dedupKeyOf d)).isSome = false)
    (h1 : now1 ≤ now2) (h2 : now2 - now1 ≤ 600) :
    (handle_detection pol st (some d) now1 ⟨true, true, true⟩).1.handled.lookup
        (dedupKeyOf d) = some now1
    ∧ (handle_detection pol st (some d) now1 ⟨true, true, true⟩).2.firewall_step = true
    ∧ (handle_detection pol
        (handle_detection pol st (some d) now1 ⟨true, true, true⟩).1
        (some d) now2 f2).2 = noEffects := by
  have hkey' : (List.lookup (d.ip.getD (str "UNKNOWN"), d.rule.getD (str "Unknown Threat"),
      d.severity.getD (str "Low")) (cleanup_old_incidents st.handled now1)).isSome = false := hkey
  have hnone : (cleanup_old_incidents st.handled now1).lookup
      (d.ip.getD (str "UNKNOWN"), d.rule.getD (str "Unknown Threat"),
       d.severity.getD (str "Low")) = none := by
    cases hc : (cleanup_old_incidents st.handled now1).lookup
        (d.ip.getD (str "UNKNOWN"), d.rule.getD (str "Unknown Threat"),
         d.severity.getD (str "Low")) with
    | none => rfl
    | some v => rw [hc] at hkey'; simp at hkey'
  have e1 : handle_detection pol st (some d) now1 ⟨true, true, true⟩
      = (⟨cleanup_old_incidents st.handled now1
            ++ [((d.ip.getD (str "UNKNOWN"), d.rule.getD (str "Unknown Threat"),
                  d.severity.getD (str "Low")), now1)],
          st.pdf_generated⟩,
         ⟨true, true, !st.pdf_generated, false, false⟩) := by
    simp [handle_detection, hkey']
  have hmem : ((d.ip.getD (str "UNKNOWN"), d.rule.getD (str "Unknown Threat"),
      d.severity.getD (str "Low")), now1) ∈
      cleanup_old_incidents
        ((handle_detection pol st (some d) now1 ⟨true, true, true⟩).1.handled) now2 := by
    rw [e1]
    apply List.mem_filter.mpr
    refine ⟨by simp, ?_⟩
    simp
    omega
  have hsome := lookupIsSomeOfMem _ _ _ hmem
  refine ⟨?_, by rw [e1], ?_⟩
  · show (handle_detection pol st (some d) now1 ⟨true, true, true⟩).1.handled.lookup
      (d.ip.getD (str "UNKNOWN"), d.rule.getD (str "Unknown Threat"),
       d.severity.getD (str "Low")) = some now1
    rw [e1]
    show (cleanup_old_incidents st.handled now1
        ++ [((d.ip.getD (str "UNKNOWN"), d.rule.getD (str "Unknown Threat"),
              d.severity.getD (str "Low")), now1)]).lookup _ = some now1
    rw [lookupAppendNone _ _ _ hnone]
    simp [List.lookup]
  · generalize hG : (handle_detection pol st (some d) now1 ⟨true, true, true⟩).1 = X at hsome ⊢
    simp only [handle_detection]
    simp [hsome]

/-- Witness for C10 at a concrete detection with all three steps raising. -/
theorem C10_key_recorded_despite_failures_witness :
    (handle_detection ⟨true, false, true, true⟩ ⟨[], false⟩ (some critDet) 5
      ⟨true, true, true⟩).1.handled.lookup (dedupKeyOf critDet) = some 5
    ∧ (handle_detection ⟨true, false, true, true⟩ ⟨[], false⟩ (some critDet) 5
        ⟨true, true, true⟩).2.firewall_step = true
    ∧ (handle_detection ⟨true, false, true, true⟩
        (handle_detection ⟨true, false, true, true⟩ ⟨[], false⟩ (some critDet) 5
          ⟨true, true, true⟩).1
        (some critDet) 300 ⟨false, false, false⟩).2 = noEffects :=
  C10_key_recorded_despite_failures ⟨true, false, true, true⟩ ⟨[], false⟩ critDet 5 300
    ⟨false, false, false⟩ (by decide) (by decide) (by decide)

theorem blockIpLedgerCases (policy : AutoBlockPolicy) (os : Str) (ledger : Ledger)
    (ip reason : Str) (ioc : Bool) (now : Str) :
    (block_ip policy os ledger ip reason ioc now).ledger = ledger
    ∨ (ledger.lookup ip = none
        ∧ ∃ rec, (block_ip policy os ledger ip reason ioc now).ledger
            = ledger ++ [(ip, rec)]) := by
  unfold block_ip
  repeat' split
  all_goals try (left; rfl)
  all_goals
    right
    refine ⟨?_, ⟨_, rfl⟩⟩
    cases hc : ledger.lookup ip with
    | none => rfl
    | some w => simp_all

theorem blockIpPreservesEntry (policy : AutoBlockPolicy) (os : Str) (ledger : Ledger)
    (ip reason : Str) (ioc : Bool) (now : Str) (k : Str) (v : BlockRecord)
    (h : ledger.lookup k = some v) :
    (block_ip policy os ledger ip reason ioc now).ledger.lookup k = some v := by
  rcases blockIpLedgerCases policy os ledger ip reason ioc now with heq | ⟨hnone, rec, heq⟩
  · rw [heq]; exact h
  · rw [heq]; exact lookupAppendSome _ _ _ _ h

theorem blockIpPreservesNodupKeys (policy : AutoBlockPolicy) (os : Str) (ledger : Ledger)
    (ip reason : Str) (ioc : Bool) (now : Str)
    (h : (ledger.map Prod.fst).Nodup) :
    ((block_ip policy os ledger ip reason ioc now).ledger.map Prod.fst).Nodup := by
  rcases blockIpLedgerCases policy os ledger ip reason ioc now with heq | ⟨hnone, rec, heq⟩
  · rw [heq]; exact h
  · rw [heq]
    have hnotmem : ip ∉ ledger.map Prod.fst := by
      intro hm
      rcases List.mem_map.mp hm with ⟨p, hp, hfst⟩
      exact lookupNoneNotMem _ _ hnone p hp hfst
    rw [List.map_append]
    simp only [List.nodup_append]
    refine ⟨h, by simp, ?_⟩
    intro x hx hxm
    simp at hxm
    exact hnotmem (hxm ▸ hx)

theorem runBlockCallsPreservesEntry (ledger : Ledger) (calls : List BlockCall)
    (k : Str) (v : BlockRecord) (h : ledger.lookup k = some v) :
    (runBlockCalls ledger calls).lookup k = some v := by
  induction calls generalizing ledger with
  | nil => simpa [runBlockCalls] using h
  | cons c cs ih =>
    simp only [runBlockCalls, List.foldl_cons] at ih ⊢
    exact ih _ (blockIpPreservesEntry c.policy c.os_type ledger c.ip c.reason
      c.ioc_confirmed c.now_iso k v h)

theorem runBlockCallsNodupKeys (ledger : Ledger) (calls : List BlockCall)
    (h : (ledger.map Prod.fst).Nodup) :
    ((runBlockCalls ledger calls).map Prod.fst).Nodup := by
  induction calls generalizing ledger with
  | nil => simpa [runBlockCalls] using h
  | cons c cs ih =>
    simp only [runBlockCalls, List.foldl_cons] at ih ⊢
    exact ih _ (blockIpPreservesNodupKeys c.policy c.os_type ledger c.ip c.reason
      c.ioc_confirmed c.now_iso h)

/-- Claim C3: for an address already in the block-audit ledger, `block_ip`
returns False, issues no enforcement command and leaves the ledger
unchanged; and across any sequential execution existing ledger entries are
never overwritten and the per-address at-most-one-entry property (no
duplicate keys) is preserved. -/
theorem C3_ledger_append_only :
    (∀ (policy : AutoBlockPolicy) (os : Str) (ledger : Ledger) (ip reason : Str)
       (ioc : Bool) (now : Str),
      (ledger.lookup ip).isSome = true →
      block_ip policy os ledger ip reason ioc now = ⟨false, ledger, []⟩)
    ∧ (∀ (ledger : Ledger) (calls : List BlockCall) (k : Str) (v : BlockRecord),
      ledger.lookup k = some v → (runBlockCalls ledger calls).lookup k = some v)
    ∧ (∀ (ledger : Ledger) (calls : List BlockCall),
      (ledger.map Prod.fst).Nodup → ((runBlockCalls ledger calls).map Prod.fst).Nodup) := by
  refine ⟨?_, runBlockCallsPreservesEntry, runBlockCallsNodupKeys⟩
  intro policy os ledger ip reason ioc now h
  unfold block_ip
  repeat' split
  all_goals rfl

/-- Witness for C3: a ledger already holding 9.9.9.9 is untouched by a
repeat block of 9.9.9.9 under a permissive policy. -/
theorem C3_ledger_append_only_witness :
    block_ip ⟨true, false⟩ (str "Windows") [(str "9.9.9.9", demoRecord)]
        (str "9.9.9.9") (str "again") true (str "t2")
      = ⟨false, [(str "9.9.9.9", demoRecord)], []⟩
    ∧ (runBlockCalls [(str "9.9.9.9", demoRecord)]
        [⟨⟨true, false⟩, str "Windows", str "9.9.9.9", str "again", true, str "t2"⟩]).lookup
          (str "9.9.9.9") = some demoRecord
    ∧ ((runBlockCalls [(str "9.9.9.9", demoRecord)]
        [⟨⟨true, false⟩, str "Windows", str "9.9.9.9", str "again", true, str "t2"⟩]).map
          Prod.fst).Nodup :=
  ⟨C3_ledger_append_only.1 ⟨true, false⟩ (str "Windows") [(str "9.9.9.9", demoRecord)]
     (str "9.9.9.9") (str "again") true (str "t2") (by decide),
   C3_ledger_append_only.2.1 [(str "9.9.9.9", demoRecord)]
     [⟨⟨true, false⟩, str "Windows", str "9.9.9.9", str "again", true, str "t2"⟩]
     (str "9.9.9.9") demoRecord (by decide),
   C3_ledger_append_only.2.2 [(str "9.9.9.9", demoRecord)]
     [⟨⟨true, false⟩, str "Windows", str "9.9.9.9", str "again", true, str "t2"⟩]
     (by decide)⟩

theorem getSeverityMem (name : Str) :
    get_severity name ∈ [str "Critical", str "High", str "Medium", str "Low"] := by
  unfold get_severity
  apply lookupGetDPred (fun v => v ∈ [str "Critical", str "High", str "Medium", str "Low"])
  · decide
  · decide

theorem escalateGetSeveritySpec (name : Str) (h : Bool) :
    escalate_severity (get_severity name) h
      = if h then specBump (get_severity name) else get_severity name := by
  have hm := getSeverityMem name
  simp only [List.mem_cons, List.not_mem_nil, or_false] at hm
  cases h with
  | false => simp [escalate_severity]
  | true =>
    rcases hm with he | he | he | he <;> rw [he] <;> decide

/-- Claim C7: every rule-match detection (not the synthetic reputation one)
carries severity equal to its rule's static base severity, escalated exactly
one level on a reputation hit (Low to Medium, Medium to High, High to
Critical, Critical stays Critical) and unchanged otherwise. -/
theorem C7_escalation_one_level (m : Matcher) (ioc_engine : Option (List Str))
    (e : LogEntry) (d : Detection) (hd : d ∈ analyze_entry m ioc_engine e)
    (hnotTIM : d.rule ≠ str "Threat Intelligence Match") :
    d.severity = if d.ioc_hit then specBump (get_severity d.rule)
      else get_severity d.rule := by
  simp only [analyze_entry] at hd
  split at hd
  · simp at hd
    rw [hd] at hnotTIM
    simp at hnotTIM
  · obtain ⟨r, hr, rfl⟩ := List.mem_map.mp hd
    exact escalateGetSeveritySpec r.1 _

/-- Witness for C7: with a reputation hit, the SQL Injection rule's Critical
base severity stays Critical. -/
theorem C7_escalation_one_level_witness :
    (⟨str "SQL Injection", str "Critical", str "7.7.7.7", str "UNKNOWN", [], [], true⟩
        : Detection).severity
      = if (⟨str "SQL Injection", str "Critical", str "7.7.7.7", str "UNKNOWN", [], [], true⟩
          : Detection).ioc_hit then
        specBump (get_severity (⟨str "SQL Injection", str "Critical", str "7.7.7.7",
          str "UNKNOWN", [], [], true⟩ : Detection).rule)
      else get_severity (⟨str "SQL Injection", str "Critical", str "7.7.7.7",
        str "UNKNOWN", [], [], true⟩ : Detection).rule :=
  C7_escalation_one_level alwaysMatcher (some [str "7.7.7.7"]) iocOnlyEntry
    ⟨str "SQL Injection", str "Critical", str "7.7.7.7", str "UNKNOWN", [], [], true⟩
    (by decide) (by decide)

/-- Claim C8, counterexample: an entry whose raw message matches a rule but
which has no normalized request is matched against the empty string, not
against the raw message — `analyze_entry` falls back to the `message` key,
never to `raw`, so no detection is emitted even though a matcher that fires
on any nonempty text would fire on the claimed fallback text. -/
theorem C8_payload_fallback_counterexample :
    detectorPayload rawOnlyEntry = []
    ∧ claimPayload rawOnlyEntry = str "<script>alert(1)</script>"
    ∧ analyze_entry anyTextMatcher none rawOnlyEntry = []
    ∧ anyTextMatcher (str "p") (claimPayload rawOnlyEntry) = true := by
  decide

/-- Claim C8, amended: the text matched is the non-empty `normalized_request`
if any, else the non-empty `message` field, else the empty string (`raw` is
never consulted for matching); every non-synthetic detection carries that
text as payload, and when the text is empty and no pattern matches the empty
string, the outcome is exactly the reputation check's synthetic detection
(or nothing). -/
theorem C8_payload_selection (m : Matcher) (ioc_engine : Option (List Str))
    (e : LogEntry) :
    (∀ d ∈ analyze_entry m ioc_engine e,
      d.rule = str "Threat Intelligence Match" ∨ d.payload = detectorPayload e)
    ∧ (detectorPayload e = [] →
       (∀ r ∈ DETECTION_RULES, m r.2 [] = false) →
       analyze_entry m ioc_engine e =
         if iocHitOf ioc_engine e then
           [{ rule := str "Threat Intelligence Match", severity := str "Critical",
              ip := e.ip.getD (str "UNKNOWN"), time := e.time.getD (str "UNKNOWN"),
              payload := str "N/A (IP Reputation Match)", raw := detectorRaw e,
              ioc_hit := true }]
         else []) := by
  constructor
  · intro d hd
    simp only [analyze_entry] at hd
    split at hd
    · simp at hd
      left
      rw [hd]
    · right
      obtain ⟨r, hr, rfl⟩ := List.mem_map.mp hd
      rfl
  · intro hp hm
    have hfilter : DETECTION_RULES.filter (fun r => m r.2 (detectorPayload e)) = [] := by
      rw [hp]
      refine List.filter_eq_nil_iff.mpr ?_
      intro r hr
      simp [hm r hr]
    simp only [analyze_entry, hfilter]
    simp

/-- Witness for C8's amended theorem: with a never-firing matcher and a
reputation hit on the entry's address, exactly the synthetic detection is
emitted. -/
theorem C8_payload_selection_witness :
    analyze_entry neverMatcher (some [str "7.7.7.7"]) iocOnlyEntry =
      if iocHitOf (some [str "7.7.7.7"]) iocOnlyEntry then
        [{ rule := str "Threat Intelligence Match"
           severity := str "Critical"
           ip := iocOnlyEntry.ip.getD (str "UNKNOWN")
           time := iocOnlyEntry.time.getD (str "UNKNOWN")
           payload := str "N/A (IP Reputation Match)"
           raw := detectorRaw iocOnlyEntry
           ioc_hit := true }]
      else [] :=
  (C8_payload_selection neverMatcher (some [str "7.7.7.7"]) iocOnlyEntry).2
    (by decide) (by decide)

theorem mapPlusToSpaceId (l : Str) (h : '+' ∉ l) : l.map plusToSpace = l := by
  induction l with
  | nil => rfl
  | cons c rest ih =>
    have h1 : c ≠ '+' := fun hc => h (by simp [hc])
    have h2 : '+' ∉ rest := fun hc => h (by simp [hc])
    have hp : plusToSpace c = c := if_neg h1
    simp only [List.map_cons, hp, ih h2]

theorem pctTokensConsNe (c : Char) (rest : Str) (h1 : c ≠ '%') :
    pctTokens (c :: rest) = Sum.inl c :: pctTokens rest := by
  rw [pctTokens.eq_def]
  split
  · simp_all
  · rename_i c2 rest2 heq
    cases heq
    rw [if_neg h1]

theorem pctTokensNoPct (l : Str) (h : '%' ∉ l) : pctTokens l = l.map Sum.inl := by
  induction l with
  | nil => rfl
  | cons c rest ih =>
    have h1 : c ≠ '%' := fun hc => h (by simp [hc])
    have h2 : '%' ∉ rest := fun hc => h (by simp [hc])
    rw [pctTokensConsNe c rest h1, ih h2, List.map_cons]

theorem pctAssembleAuxInl (l : Str) : pctAssembleAux [] (l.map Sum.inl) = l := by
  induction l with
  | nil => rfl
  | cons c rest ih =>
    show utf8Decode (List.reverse []) ++ c :: pctAssembleAux [] (rest.map Sum.inl)
      = c :: rest
    rw [ih]
    rfl

theorem unquotePlusId (l : Str) (hpct : '%' ∉ l) (hplus : '+' ∉ l) :
    unquote_plus l = l := by
  unfold unquote_plus pctAssemble
  rw [mapPlusToSpaceId l hplus, pctTokensNoPct l hpct, pctAssembleAuxInl]

theorem unescapeAuxNoAmp (n : Nat) (l : Str) (h : '&' ∉ l) : unescapeAux n l = l := by
  induction n generalizing l with
  | zero => rfl
  | succ k ih =>
    cases l with
    | nil => rfl
    | cons c rest =>
      have h1 : c ≠ '&' := fun hc => h (by simp [hc])
      have h2 : '&' ∉ rest := fun hc => h (by simp [hc])
      simp only [unescapeAux]
      rw [if_neg h1, ih rest h2]

theorem htmlUnescapeNoAmp (l : Str) (h : '&' ∉ l) : html_unescape l = l :=
  unescapeAuxNoAmp l.length l h

theorem decodeRoundId (l : Str) (hpct : '%' ∉ l) (hplus : '+' ∉ l) (hamp : '&' ∉ l) :
    decodeRound l = l := by
  unfold decodeRound
  rw [unquotePlusId l hpct hplus]
  exact htmlUnescapeNoAmp l hamp

theorem recursiveDecodeId (l : Str) (hpct : '%' ∉ l) (hplus : '+' ∉ l) (hamp : '&' ∉ l) :
    recursive_decode l = l := by
  unfold recursive_decode
  by_cases hl : l.isEmpty
  · rw [if_pos hl]
    exact (List.isEmpty_iff.mp hl).symm
  · rw [if_neg hl]
    simp only [decodeRounds]
    rw [decodeRoundId l hpct hplus hamp]
    simp

theorem notMemReplicateA (c : Char) (hc : c ≠ 'a') : c ∉ List.replicate 2001 'a' := by
  intro hm
  rw [List.mem_replicate] at hm
  exact hc hm.2

theorem preCapReplicateA : preCap (List.replicate 2001 'a') = List.replicate 2001 'a' := by
  unfold preCap
  rw [recursiveDecodeId _ (notMemReplicateA '%' (by decide))
    (notMemReplicateA '+' (by decide)) (notMemReplicateA '&' (by decide))]
  have hstrip : strip_control_chars (List.replicate 2001 'a') = List.replicate 2001 'a' := by
    unfold strip_control_chars
    refine List.filter_eq_self.mpr ?_
    intro a ha
    rw [List.eq_of_mem_replicate ha]
    decide
  rw [hstrip, List.map_replicate]
  have hl : Char.toLower 'a' = 'a' := by decide
  rw [hl]

theorem lengthGuardBound (s : Str) : (lengthGuard s).length ≤ MAX_LEN + 3 := by
  unfold lengthGuard
  split
  · rename_i hgt
    simp only [List.length_append, List.length_take, List.length_drop]
    have h3 : (str "...").length = 3 := rfl
    rw [h3]
    have hm : min HALF_LEN s.length = HALF_LEN := by
      apply Nat.min_eq_left
      unfold MAX_LEN at hgt
      unfold HALF_LEN MAX_LEN
      omega
    rw [hm]
    unfold HALF_LEN MAX_LEN at *
    omega
  · rename_i hle
    unfold MAX_LEN at *
    omega

/-- Claim C5, counterexample: a request of 2001 characters normalizes to a
field of 2003 characters (first 1000 + three-character marker + last 1000),
exceeding the claimed 2000-character bound. -/
theorem C5_cap_exceeds_claimed_bound :
    ((normalize_log_entry bigEntry).normalized_request.getD []).length = 2003
    ∧ ¬((normalize_log_entry bigEntry).normalized_request.getD []).length ≤ 2000 := by
  have hfield : (normalize_log_entry bigEntry).normalized_request
      = some (lengthGuard (List.replicate 2001 'a')) := by
    show some (normalizeField (pyGetStr bigEntry.request)) = _
    have hreq : pyGetStr bigEntry.request = List.replicate 2001 'a' := rfl
    rw [hreq]
    unfold normalizeField
    have hpre : (strip_control_chars (recursive_decode (List.replicate 2001 'a'))).map
        Char.toLower = List.replicate 2001 'a' := preCapReplicateA
    rw [hpre]
  have hlen : (lengthGuard (List.replicate 2001 'a')).length = 2003 := by
    unfold lengthGuard
    rw [if_pos (by rw [List.length_replicate]; decide)]
    simp only [List.length_append, List.length_take, List.length_drop,
      List.length_replicate]
    decide
  constructor
  · rw [hfield]
    simp only [Option.getD_some]
    exact hlen
  · rw [hfield]
    simp only [Option.getD_some]
    omega

/-- Claim C5, amended: each normalized field has length at most
`MAX_LEN + 3` = 2003 (not 2000); when the decoded, stripped, lower-cased
text exceeds 2000 characters, the output is its first 1000 and last 1000
characters joined by the three-character elision marker. -/
theorem C5_length_cap_amended (e : LogEntry) :
    ((normalize_log_entry e).normalized_request.getD []).length ≤ MAX_LEN + 3
    ∧ ((normalize_log_entry e).normalized_raw.getD []).length ≤ MAX_LEN + 3
    ∧ (MAX_LEN < (preCap (pyGetStr e.request)).length →
        (normalize_log_entry e).normalized_request
          = some ((preCap (pyGetStr e.request)).take HALF_LEN ++ str "..."
              ++ (preCap (pyGetStr e.request)).drop
                  ((preCap (pyGetStr e.request)).length - HALF_LEN))) := by
  refine ⟨?_, ?_, ?_⟩
  · show (lengthGuard (preCap (pyGetStr e.request))).length ≤ MAX_LEN + 3
    exact lengthGuardBound _
  · show (lengthGuard (preCap (pyGetStr e.raw))).length ≤ MAX_LEN + 3
    exact lengthGuardBound _
  · intro hgt
    show some (lengthGuard (preCap (pyGetStr e.request))) = _
    unfold lengthGuard
    rw [if_pos hgt]

/-- Witness for C5's amended theorem at the 2001-character entry. -/
theorem C5_length_cap_amended_witness :
    ((normalize_log_entry bigEntry).normalized_request.getD []).length ≤ MAX_LEN + 3
    ∧ ((normalize_log_entry bigEntry).normalized_raw.getD []).length ≤ MAX_LEN + 3
    ∧ (MAX_LEN < (preCap (pyGetStr bigEntry.request)).length →
        (normalize_log_entry bigEntry).normalized_request
          = some ((preCap (pyGetStr bigEntry.request)).take HALF_LEN ++ str "..."
              ++ (preCap (pyGetStr bigEntry.request)).drop
                  ((preCap (pyGetStr bigEntry.request)).length - HALF_LEN))) :=
  C5_length_cap_amended bigEntry

theorem memIfSingleton {c : Prop} [Decidable c] {y x : α}
    (hx : x ∈ (if c then [y] else [])) : x = y := by
  split at hx <;> simp_all

theorem foldlGroupInsertConst (a : Str) (dets : List CorDetection)
    (h : ∀ d ∈ dets, d.ip = a) (l : List CorDetection) :
    dets.foldl groupInsert [(a, l)] = [(a, l ++ dets)] := by
  induction dets generalizing l with
  | nil => simp
  | cons d ds ih =>
    have hd : d.ip = a := h d (by simp)
    have hrest : ∀ x ∈ ds, x.ip = a := fun x hx => h x (by simp [hx])
    simp only [List.foldl_cons]
    have hins : groupInsert [(a, l)] d = [(a, l ++ [d])] := by
      simp [groupInsert, hd]
    rw [hins, ih hrest]
    simp

theorem groupByIpConst (a : Str) (dets : List CorDetection)
    (h : ∀ d ∈ dets, d.ip = a) (hne : dets ≠ []) :
    groupByIp dets = [(a, dets)] := by
  cases dets with
  | nil => simp at hne
  | cons d ds =>
    unfold groupByIp
    simp only [List.foldl_cons]
    have hd : d.ip = a := h d (by simp)
    have hins : groupInsert [] d = [(a, [d])] := by
      simp [groupInsert, hd]
    rw [hins, foldlGroupInsertConst a ds (fun x hx => h x (by simp [hx])) [d]]
    rfl

theorem filterWindowAll (now window : Int) (events : List CorDetection)
    (hwin : ∀ e1 ∈ events, ∀ e2 ∈ events,
      parse_time now e1.time - window ≤ parse_time now e2.time) :
    filter_time_window now window events = events := by
  cases events with
  | nil => rfl
  | cons e es =>
    unfold filter_time_window
    rw [List.getLast?_eq_getLast (e :: es) (by simp)]
    refine List.filter_eq_self.mpr ?_
    intro x hx
    have hlast_mem : (e :: es).getLast (by simp) ∈ e :: es := List.getLast_mem _
    have hle := hwin _ hlast_mem x hx
    simp only [decide_eq_true_eq]
    omega

/-- Claim C6, counterexample: six Failed Login detections from one address
inside the window yield exactly one Brute Force Login Attack incident, but
its `count` is 6, not 5 — `count` is the number of failed-login detections,
not the threshold. -/
theorem C6_count_is_not_five :
    (correlate 0 300 (List.replicate 6 bruteDet)).map (fun i => (i.itype, i.count))
      = [(str "Brute Force Login Attack", 6)]
    ∧ (6 : Nat) ≠ 5 := by
  decide

theorem analyzeIpBruteSpec (ip : Str) (events : List CorDetection)
    (hne : events.isEmpty = false) :
    (analyze_ip ip events).countP
        (fun i => i.itype == str "Brute Force Login Attack")
      = (if 5 ≤ (events.filter
            (fun e => strContains e.rule (str "Failed Login"))).length
         then 1 else 0)
    ∧ ∀ inc ∈ analyze_ip ip events,
        inc.itype = str "Brute Force Login Attack" →
        inc.count = (events.filter
            (fun e => strContains e.rule (str "Failed Login"))).length
          ∧ inc.severity = str "High" ∧ inc.ip = ip := by
  have hb1 : (str "Brute Force Login Attack" == str "Brute Force Login Attack")
      = true := by decide
  have hb2 : (str "Reconnaissance Followed by Exploitation"
      == str "Brute Force Login Attack") = false := by decide
  have hb3 : (str "Repeated Critical Attack Attempts"
      == str "Brute Force Login Attack") = false := by decide
  have hb4 : (str "High Volume Suspicious Activity"
      == str "Brute Force Login Attack") = false := by decide
  unfold analyze_ip
  rw [hne]
  simp only [Bool.false_eq_true, if_false]
  constructor
  · simp only [List.countP_append,
      apply_ite (fun l : List Incident =>
        List.countP (fun i => i.itype == str "Brute Force Login Attack") l),
      List.countP_cons, List.countP_nil, hb1, hb2, hb3, hb4]
    simp
  · intro inc hmem hty
    rcases List.mem_append.mp hmem with hm1 | hmD
    · rcases List.mem_append.mp hm1 with hm2 | hmC
      · rcases List.mem_append.mp hm2 with hmA | hmB
        · have he := memIfSingleton hmA
          rw [he]
          exact ⟨rfl, rfl, rfl⟩
        · have he := memIfSingleton hmB
          rw [he] at hty
          have hne2 : (str "Reconnaissance Followed by Exploitation" : Str)
              ≠ str "Brute Force Login Attack" := by decide
          exact absurd hty hne2
      · have he := memIfSingleton hmC
        rw [he] at hty
        have hne3 : (str "Repeated Critical Attack Attempts" : Str)
            ≠ str "Brute Force Login Attack" := by decide
        exact absurd hty hne3
    · have he := memIfSingleton hmD
      rw [he] at hty
      have hne4 : (str "High Volume Suspicious Activity" : Str)
          ≠ str "Brute Force Login Attack" := by decide
      exact absurd hty hne4

/-- Claim C6, amended: for a batch of detections from one source address all
within the correlation window, `correlate` yields exactly one incident of
type Brute Force Login Attack when at least five of them have a rule name
containing "Failed Login" (none otherwise), and that incident carries
severity High, the source address, and `count` equal to the number of such
failed-login detections — which is 5 exactly when five are present. -/
theorem C6_brute_force_amended (now window : Int) (a : Str)
    (dets : List CorDetection) (hne : dets ≠ [])
    (hip : ∀ d ∈ dets, d.ip = a)
    (hwin : ∀ e1 ∈ dets, ∀ e2 ∈ dets,
      parse_time now e1.time - window ≤ parse_time now e2.time) :
    (correlate now window dets).countP
        (fun i => i.itype == str "Brute Force Login Attack")
      = (if 5 ≤ dets.countP (fun d => strContains d.rule (str "Failed Login"))
         then 1 else 0)
    ∧ ∀ inc ∈ correlate now window dets,
        inc.itype = str "Brute Force Login Attack" →
        inc.count = dets.countP (fun d => strContains d.rule (str "Failed Login"))
          ∧ inc.severity = str "High" ∧ inc.ip = a := by
  have hperm : (sortByTime dets).Perm dets :=
    List.perm_insertionSort (fun x y : CorDetection => strLe x.time y.time = true) dets
  have hip2 : ∀ d ∈ sortByTime dets, d.ip = a :=
    fun d hd => hip d (hperm.mem_iff.mp hd)
  have hwin2 : ∀ e1 ∈ sortByTime dets, ∀ e2 ∈ sortByTime dets,
      parse_time now e1.time - window ≤ parse_time now e2.time :=
    fun e1 h1 e2 h2 => hwin e1 (hperm.mem_iff.mp h1) e2 (hperm.mem_iff.mp h2)
  have hfil : filter_time_window now window (sortByTime dets) = sortByTime dets :=
    filterWindowAll now window _ hwin2
  have hgroup : groupByIp dets = [(a, dets)] := groupByIpConst a dets hip hne
  have hie : dets.isEmpty = false := by
    cases dets with
    | nil => simp at hne
    | cons d ds => rfl
  have hcor : correlate now window dets = analyze_ip a (sortByTime dets) := by
    unfold correlate
    rw [hgroup]
    simp [hie, hfil]
  have hevs_ne : (sortByTime dets).isEmpty = false := by
    cases hevs : sortByTime dets with
    | nil => exact absurd (List.Perm.eq_nil (hevs ▸ hperm).symm).symm (Ne.symm hne)
    | cons x xs => rfl
  have hflen : ((sortByTime dets).filter
        (fun d => strContains d.rule (str "Failed Login"))).length
      = dets.countP (fun d => strContains d.rule (str "Failed Login")) := by
    rw [← List.countP_eq_length_filter]
    exact hperm.countP_eq _
  have hmain := analyzeIpBruteSpec a (sortByTime dets) hevs_ne
  rw [hcor, ← hflen]
  exact hmain

/-- Witness for C6's amended theorem: five identical Failed Login detections
from one address (sentinel timestamps, hence trivially in-window) yield one
Brute Force Login Attack incident of count 5 and severity High. -/
theorem C6_brute_force_amended_witness :
    (correlate 0 300 (List.replicate 5 bruteDet)).countP
        (fun i => i.itype == str "Brute Force Login Attack")
      = (if 5 ≤ (List.replicate 5 bruteDet).countP
            (fun d => strContains d.rule (str "Failed Login"))
         then 1 else 0)
    ∧ ∀ inc ∈ correlate 0 300 (List.replicate 5 bruteDet),
        inc.itype = str "Brute Force Login Attack" →
        inc.count = (List.replicate 5 bruteDet).countP
            (fun d => strContains d.rule (str "Failed Login"))
          ∧ inc.severity = str "High" ∧ inc.ip = str "5.5.5.5" :=
  C6_brute_force_amended 0 300 (str "5.5.5.5") (List.replicate 5 bruteDet)
    (by decide) (by decide) (by decide)
